import Mathlib

/-!
# go-sqlite3: shared-memory attach, the flock lock backend and connection close/prepare

A shallow embedding of

* `vfs/shm.go`        : `NewSharedMemory`
* `vfs_os_other.go`   : `Allocate`, `unlock`, `readLock`, `writeLock`, `checkLock`
* `conn.go`           : `Conn.Close`, `Conn.PrepareFlags`, `Conn.error`

Machine integers are `Nat` / `Int`.  Operating-system calls and calls into the
WebAssembly engine are explicit: every function takes the results the host
hands back and returns, next to its Go result, the list of calls it issued.
Constants and helpers that the sources use but do not declare
(`OPEN_*`, `IOERR_*`, `unix.*`, `lockErrorCode`, `Error.Code`, ...) are parameters.
-/

namespace Sqlite3

/-! ## vfs/shm.go -/

/-- The `OpenFlag` constants read by `NewSharedMemory`; they are declared outside
the embedded sources, so their values are parameters. -/
structure OpenFlagConsts where
  OPEN_READONLY : Nat
  OPEN_DELETEONCLOSE : Nat
  OPEN_MEMORY : Nat
  OPEN_MAIN_DB : Nat

/-- The values these constants have in SQLite (`sqlite3.h`). -/
def sqliteOpenFlags : OpenFlagConsts :=
  { OPEN_READONLY := 0x1, OPEN_DELETEONCLOSE := 0x8, OPEN_MEMORY := 0x80, OPEN_MAIN_DB := 0x100 }

/-- The fields of `vfsShm` that `NewSharedMemory` sets; every other field keeps its zero value. -/
structure vfsShm where
  path : String
  readOnly : Bool
deriving DecidableEq, Repr

/-- `NewSharedMemory(path, flags)`; `none` is the nil interface value. -/
def NewSharedMemory (K : OpenFlagConsts) (path : String) (flags : Nat) : Option vfsShm :=
  if flags &&& K.OPEN_MAIN_DB = 0 ∨ flags &&& (K.OPEN_DELETEONCLOSE ||| K.OPEN_MEMORY) ≠ 0 then
    none
  else
    some { path := path, readOnly := decide (flags &&& K.OPEN_READONLY ≠ 0) }

/-- A flags value contains the flag `f` when they share a bit. -/
def hasFlag (flags f : Nat) : Prop := flags &&& f ≠ 0

instance (flags f : Nat) : Decidable (hasFlag flags f) := by
  unfold hasFlag; infer_instance

/-! ## vfs_os_other.go -/

/-- A Go `error` value: `nil`, a `unix.Errno`, or an error of any other dynamic type. -/
inductive GoError
  | nil
  | errno (e : Nat)
  | other (msg : String)
deriving DecidableEq, Repr

/-- The `golang.org/x/sys/unix` constants the lock backend uses (platform dependent). -/
structure UnixConsts where
  EAGAIN : Nat
  LOCK_SH : Nat
  LOCK_EX : Nat
  LOCK_NB : Nat
  LOCK_UN : Nat
  F_RDLCK : Nat
  F_UNLCK : Nat
  F_GETLK : Nat

/-- The values of these constants on FreeBSD, one of the targets of `vfs_os_other.go`. -/
def freebsdConsts : UnixConsts :=
  { EAGAIN := 35, LOCK_SH := 1, LOCK_EX := 2, LOCK_NB := 4, LOCK_UN := 8,
    F_RDLCK := 1, F_UNLCK := 2, F_GETLK := 11 }

/-- The `xErrorCode` constants the lock backend returns; declared outside the embedded sources. -/
structure LockCodes where
  _OK : Nat
  IOERR_UNLOCK : Nat
  IOERR_RDLOCK : Nat
  IOERR_CHECKRESERVEDLOCK : Nat

/-- The values of these codes in SQLite (`sqlite3.h`). -/
def sqliteLockCodes : LockCodes :=
  { _OK := 0, IOERR_UNLOCK := 2058, IOERR_RDLOCK := 2314, IOERR_CHECKRESERVEDLOCK := 3594 }

/-- The `unix.Flock_t` fields that `checkLock` sets; the others keep their zero value. -/
structure Flock_t where
  Type_ : Nat
  Start : Int
  Len : Int
deriving DecidableEq, Repr

/-- A call that leaves the process: a system call on the file or a sleep. -/
inductive SysCall
  | seekEnd (fd : Nat)
  | truncate (fd : Nat) (size : Int)
  | flock (fd : Nat) (how : Nat)
  | fcntlFlock (fd : Nat) (cmd : Nat) (lk : Flock_t)
  | sleep (d : Int)
deriving DecidableEq, Repr

/-- `time.Millisecond`, in nanoseconds (the unit of `time.Duration`). -/
def Millisecond : Int := 1000000

/-- An `*os.File` as `Allocate` sees it: its descriptor, its current length, and what the
host answers to `Seek` and `Truncate` (`GoError.nil` for success). -/
structure OsFile where
  fd : Nat
  length : Int
  seekErr : GoError
  truncErr : GoError
deriving DecidableEq, Repr

/-- `file.Seek(0, io.SeekEnd)`: the offset of the end of the file, or `(0, err)`. -/
def OsFile.SeekEnd (f : OsFile) : Int × GoError :=
  if f.seekErr = GoError.nil then (f.length, GoError.nil) else (0, f.seekErr)

/-- `file.Truncate(size)`: on success the file has exactly `size` bytes. -/
def OsFile.Truncate (f : OsFile) (size : Int) : OsFile × GoError :=
  if f.truncErr = GoError.nil then ({ f with length := size }, GoError.nil) else (f, f.truncErr)

/-- What a backend call leaves behind: its Go result, the file afterwards, the calls issued. -/
structure AllocateResult where
  err : GoError
  file : OsFile
  calls : List SysCall
deriving DecidableEq, Repr

/-- `vfsOSMethods.Allocate(file, size)`. -/
def Allocate (file : OsFile) (size : Int) : AllocateResult :=
  let (off, err) := file.SeekEnd
  if err ≠ GoError.nil then
    { err := err, file := file, calls := [SysCall.seekEnd file.fd] }
  else if size ≤ off then
    { err := GoError.nil, file := file, calls := [SysCall.seekEnd file.fd] }
  else
    let (file2, err2) := file.Truncate size
    { err := err2, file := file2,
      calls := [SysCall.seekEnd file.fd, SysCall.truncate file.fd size] }

/-- A descriptor under `flock`: the whole-file lock this handle holds (`none` when unlocked;
otherwise `LOCK_SH` or `LOCK_EX`). -/
structure FlockFile where
  fd : Nat
  held : Option Nat
deriving DecidableEq, Repr

/-- `unix.Flock(fd, LOCK_UN)` with the host answering `res`: a successful call drops the lock. -/
def FlockFile.flockUnlock (f : FlockFile) (res : GoError) : FlockFile × GoError :=
  if res = GoError.nil then ({ f with held := none }, GoError.nil) else (f, res)

/-- Result of `unlock`: the code, the descriptor afterwards, the calls issued. -/
structure UnlockResult where
  code : Nat
  file : FlockFile
  calls : List SysCall
deriving DecidableEq, Repr

/-- `vfsOSMethods.unlock(file, start, len)`; `res` is what the host answers to the release. -/
def unlock (C : LockCodes) (U : UnixConsts) (file : FlockFile) (res : GoError)
    (start len : Int) : UnlockResult :=
  if start = 0 ∧ len = 0 then
    let (file2, err) := file.flockUnlock res
    if err ≠ GoError.nil then
      { code := C.IOERR_UNLOCK, file := file2, calls := [SysCall.flock file.fd U.LOCK_UN] }
    else
      { code := C._OK, file := file2, calls := [SysCall.flock file.fd U.LOCK_UN] }
  else
    { code := C._OK, file := file, calls := [] }

/-- `errno, _ := err.(unix.Errno)`: the errno, or the zero value when `err` is not one. -/
def asErrno : GoError → Nat
  | GoError.errno e => e
  | _ => 0

/-- The retry loop of `readLock` and `writeLock` (the two loops differ only in the
operation `how` passed to `unix.Flock`), from attempt number `k` on.
`res k` is what the host answers to the `k`-th `unix.Flock(fd, how)`.
Returns the last `err` and the calls issued, in order.
`timeout -= time.Millisecond` runs only when `timeout ≥ time.Millisecond`, so it cannot
leave the `int64` range. -/
def lockLoop (U : UnixConsts) (fd how : Nat) (res : Nat → GoError) (k : Nat) (timeout : Int) :
    GoError × List SysCall :=
  let err := res k
  if asErrno err ≠ U.EAGAIN then
    (err, [SysCall.flock fd how])
  else if timeout < Millisecond then
    (err, [SysCall.flock fd how])
  else
    let r := lockLoop U fd how res (k + 1) (timeout - Millisecond)
    (r.1, SysCall.flock fd how :: SysCall.sleep Millisecond :: r.2)
termination_by timeout.toNat
decreasing_by
  have hm : Millisecond = 1000000 := rfl
  omega

/-- Result of `readLock` / `writeLock`: the code returned, the final `err`, the calls issued. -/
structure LockResult where
  code : Nat
  err : GoError
  calls : List SysCall

/-- `vfsOSMethods.readLock(file, start, len, timeout)`.  `lockErrorCode` is declared outside
the embedded sources and is a parameter. -/
def readLock (C : LockCodes) (U : UnixConsts) (lockErrorCode : GoError → Nat → Nat)
    (fd : Nat) (res : Nat → GoError) (_start _len : Int) (timeout : Int) : LockResult :=
  let r := lockLoop U fd (U.LOCK_SH ||| U.LOCK_NB) res 0 timeout
  { code := lockErrorCode r.1 C.IOERR_RDLOCK, err := r.1, calls := r.2 }

/-- `vfsOSMethods.writeLock(file, start, len, timeout)`. -/
def writeLock (C : LockCodes) (U : UnixConsts) (lockErrorCode : GoError → Nat → Nat)
    (fd : Nat) (res : Nat → GoError) (_start _len : Int) (timeout : Int) : LockResult :=
  let r := lockLoop U fd (U.LOCK_EX ||| U.LOCK_NB) res 0 timeout
  { code := lockErrorCode r.1 C.IOERR_RDLOCK, err := r.1, calls := r.2 }

/-- `vfsOSMethods.checkLock(file, start, len)`.  `fcntl` is the host: given the descriptor,
the command and the lock description it answers with an error and the description as the
kernel rewrote it. -/
def checkLock (C : LockCodes) (U : UnixConsts) (fd : Nat)
    (fcntl : Nat → Nat → Flock_t → GoError × Flock_t) (start len : Int) :
    (Bool × Nat) × List SysCall :=
  let lock : Flock_t := { Type_ := U.F_RDLCK, Start := start, Len := len }
  let (err, lock2) := fcntl fd U.F_GETLK lock
  if err ≠ GoError.nil then
    ((false, C.IOERR_CHECKRESERVEDLOCK), [SysCall.fcntlFlock fd U.F_GETLK lock])
  else
    ((decide (lock2.Type_ ≠ U.F_UNLCK), C._OK), [SysCall.fcntlFlock fd U.F_GETLK lock])

/-- Number of lock attempts (`unix.Flock` calls) in a list of calls. -/
def attempts : List SysCall → Nat
  | [] => 0
  | SysCall.flock _ _ :: cs => attempts cs + 1
  | _ :: cs => attempts cs

/-- Number of sleeps in a list of calls. -/
def sleeps : List SysCall → Nat
  | [] => 0
  | SysCall.sleep _ :: cs => sleeps cs + 1
  | _ :: cs => sleeps cs

/-- Total time slept, in nanoseconds. -/
def totalSleep : List SysCall → Int
  | [] => 0
  | SysCall.sleep d :: cs => d + totalSleep cs
  | _ :: cs => totalSleep cs

/-- The calls of `n` attempts `flock fd how` with one sleep of `d` between consecutive
attempts, and nothing after the last attempt. -/
def retrySchedule (fd how : Nat) (d : Int) : Nat → List SysCall
  | 0 => []
  | 1 => [SysCall.flock fd how]
  | n + 1 => SysCall.flock fd how :: SysCall.sleep d :: retrySchedule fd how d n

/-! ## conn.go -/

/-- A Go `string`, as its bytes. -/
abbrev GoString := List Nat

/-- A string literal of ASCII characters as a `GoString`. -/
def ascii (s : String) : GoString := s.toList.map Char.toNat

/-- The `Error` struct that `Conn.error` fills in. -/
structure Error where
  code : Nat
  str : GoString
  msg : GoString
  sql : GoString
deriving DecidableEq, Repr

/-- The value of an `error` result of `Close` / `PrepareFlags`: `nil`, the error of a failed
call into the WebAssembly module, or a pointer to an `Error`. -/
inductive ErrorValue
  | nil
  | call (msg : String)
  | sqlite (e : Error)
deriving DecidableEq, Repr

/-- The value a Go `panic` carries: `oomErr`, the error of a failed call into the module,
a slice expression out of range, or the panic of a memory helper (`readString`,
`readUint32`, `view`) that is declared outside the embedded sources. -/
inductive PanicValue
  | oomErr
  | callErr (msg : String)
  | sliceBounds
  | memory (msg : String)
deriving DecidableEq, Repr

/-- How a Go function call ends: it returns, or it panics. -/
inductive Outcome (α : Type)
  | ret (a : α)
  | panic (v : PanicValue)
deriving DecidableEq, Repr

/-- The result codes and `Error` methods that `conn.go` uses but does not declare. -/
structure SqliteConsts where
  _OK : Nat
  NOMEM : Nat
  IOERR_NOMEM : Nat
  Code : Error → Nat
  ExtendedCode : Error → Nat
  ptrlen : Nat

/-- The values in SQLite (`sqlite3.h`): the primary result code is the low byte of a code,
the extended code its low 16 bits, and pointers of the 32-bit module take 4 bytes. -/
def sqliteConsts : SqliteConsts :=
  { _OK := 0, NOMEM := 7, IOERR_NOMEM := 3082,
    Code := fun e => e.code % 256,
    ExtendedCode := fun e => e.code % 65536,
    ptrlen := 4 }

/-- `math.MaxUint32`. -/
def MaxUint32 : Nat := 4294967295

/-- What the WebAssembly module answers to the calls of `Conn.error`, each as a function of
the arguments passed: `none` when the result slice `r` is nil, `some r0` when it is `[r0]`;
and `c.mem.readString(ptr, maxlen)`, which is declared outside the embedded sources and is a
parameter: it returns the string it finds in the module memory, or it panics (on a nil
pointer, or when no terminator lies within reach). -/
structure ErrorHost where
  errmsg : Nat → Option Nat
  erroff : Nat → Option Nat
  errstr : Nat → Option Nat
  readString : Nat → Nat → Outcome GoString

/-- The step of `Conn.error` that fills in `err.msg`: the `errmsg` call and the read of the
string it points to. -/
def Conn.error.withMsg (H : ErrorHost) (handle : Nat) (err : Error) : Outcome Error :=
  match H.errmsg handle with
  | some r0 =>
    match H.readString (r0 % 2 ^ 32) 512 with
    | Outcome.panic v => Outcome.panic v
    | Outcome.ret m => Outcome.ret { err with msg := m }
  | none => Outcome.ret err

/-- The step of `Conn.error` that fills in `err.sql`; `sql` is `none` when no sql argument
is passed (`sql == nil`). -/
def Conn.error.withSql (H : ErrorHost) (handle : Nat) (sql : Option GoString) (err : Error) :
    Outcome Error :=
  match sql with
  | none => Outcome.ret err
  | some s =>
    match H.erroff handle with
    | some r0 =>
      if r0 ≠ MaxUint32 then
        if r0 ≤ s.length then Outcome.ret { err with sql := s.drop r0 }
        else Outcome.panic PanicValue.sliceBounds
      else Outcome.ret err
    | none => Outcome.ret err

/-- The step of `Conn.error` that fills in `err.str`: the `errstr` call and the read of the
string it points to. -/
def Conn.error.withStr (H : ErrorHost) (rc : Nat) (err : Error) : Outcome Error :=
  match H.errstr rc with
  | some r0 =>
    match H.readString (r0 % 2 ^ 32) 512 with
    | Outcome.panic v => Outcome.panic v
    | Outcome.ret s => Outcome.ret { err with str := s }
  | none => Outcome.ret err

/-- `(c *Conn) error(rc, sql...)` for a connection with the given handle; `sql` is `none`
when no sql argument is passed. -/
def Conn.error (K : SqliteConsts) (H : ErrorHost) (handle : Nat) (rc : Nat)
    (sql : Option GoString) : Outcome (Option Error) :=
  if rc = K._OK then
    Outcome.ret none
  else
    let err : Error := { code := rc, str := [], msg := [], sql := [] }
    if K.Code err = K.NOMEM ∨ K.ExtendedCode err = K.IOERR_NOMEM then
      Outcome.panic PanicValue.oomErr
    else
      match Conn.error.withMsg H handle err with
      | Outcome.panic v => Outcome.panic v
      | Outcome.ret err1 =>
        match Conn.error.withSql H handle sql err1 with
        | Outcome.panic v => Outcome.panic v
        | Outcome.ret err2 =>
          match Conn.error.withStr H rc err2 with
          | Outcome.panic v => Outcome.panic v
          | Outcome.ret err3 =>
            Outcome.ret (some (if err3.msg = err3.str then { err3 with msg := [] } else err3))

/-- A `Conn`: its `handle`, and whether its WebAssembly module (`c.mem.mod`) was closed. -/
structure Conn where
  handle : Nat
  modClosed : Bool
deriving DecidableEq, Repr

/-- The module as `Close` sees it: the answers `Conn.error` needs, the answer to
`c.api.close.Call` (the call's error, or `r[0]`), and the result of `c.mem.mod.Close`. -/
structure CloseHost extends ErrorHost where
  close : Nat → Except String Nat
  modClose : ErrorValue

/-- What `Close` leaves behind: how the call ended, and the connection afterwards. -/
structure CloseResult where
  out : Outcome ErrorValue
  conn : Option Conn
deriving DecidableEq, Repr

/-- `(c *Conn) Close()`; `none` is the nil connection. -/
def Conn.Close (K : SqliteConsts) (H : CloseHost) : Option Conn → CloseResult
  | none => { out := Outcome.ret ErrorValue.nil, conn := none }
  | some c =>
    match H.close c.handle with
    | Except.error e => { out := Outcome.ret (ErrorValue.call e), conn := some c }
    | Except.ok r0 =>
      match Conn.error K H.toErrorHost c.handle r0 none with
      | Outcome.panic v => { out := Outcome.panic v, conn := some c }
      | Outcome.ret (some e) => { out := Outcome.ret (ErrorValue.sqlite e), conn := some c }
      | Outcome.ret none =>
        { out := Outcome.ret H.modClose, conn := some { handle := 0, modClosed := true } }

/-- The `Stmt` that `PrepareFlags` builds: its `handle` (its `c` is the connection). -/
structure Stmt where
  handle : Nat
deriving DecidableEq, Repr

/-- The module as `PrepareFlags` sees it: the answer to the `k`-th `malloc` call, to `free`
(the call's error, if any) and to `prepare`; and the memory helpers `c.mem.view(ptr, siz)`
and `c.mem.readUint32(ptr)` (the latter on the memory after the `prepare` call), which are
declared outside the embedded sources and are parameters: each returns or panics. -/
structure PrepareHost extends ErrorHost where
  malloc : Nat → Nat → Except String Nat
  free : Nat → Option String
  prepare : Nat → Nat → Nat → Nat → Nat → Nat → Except String Nat
  view : Nat → Nat → Outcome Unit
  readUint32 : Nat → Outcome Nat

/-- `(c *Conn) new(len)`, as the `k`-th allocation. -/
def Conn.new (H : PrepareHost) (k : Nat) (len : Nat) : Outcome Nat :=
  match H.malloc k len with
  | Except.error e => Outcome.panic (PanicValue.callErr e)
  | Except.ok r0 =>
    let ptr := r0 % 2 ^ 32
    if ptr = 0 ∧ len ≠ 0 then Outcome.panic PanicValue.oomErr else Outcome.ret ptr

/-- `(c *Conn) newString(s)`, as the `k`-th allocation.  When `c.mem.view(ptr, siz)` returns
it yields a buffer of `siz` bytes, so `buf[len(s)] = 0` is out of range when `len(s) + 1`
does not fit in a `uint32`. -/
def Conn.newString (H : PrepareHost) (k : Nat) (s : GoString) : Outcome Nat :=
  let siz := (s.length + 1) % 2 ^ 32
  match Conn.new H k siz with
  | Outcome.panic v => Outcome.panic v
  | Outcome.ret ptr =>
    match H.view ptr siz with
    | Outcome.panic v => Outcome.panic v
    | Outcome.ret _ =>
      if s.length < siz then Outcome.ret ptr else Outcome.panic PanicValue.sliceBounds

/-- `(c *Conn) free(ptr)`. -/
def Conn.free (H : PrepareHost) (ptr : Nat) : Outcome Unit :=
  if ptr = 0 then Outcome.ret ()
  else
    match H.free ptr with
    | some e => Outcome.panic (PanicValue.callErr e)
    | none => Outcome.ret ()

/-- The deferred `c.free` calls, in the order they run: a panic in one replaces the
outcome so far, and the remaining ones still run. -/
def runDeferredFrees {α : Type} (H : PrepareHost) : List Nat → Outcome α → Outcome α
  | [], o => o
  | p :: ps, o =>
    match Conn.free H p with
    | Outcome.panic v => runDeferredFrees H ps (Outcome.panic v)
    | Outcome.ret _ => runDeferredFrees H ps o

/-- The body of `PrepareFlags` from the `prepare` call on, once the three allocations
succeeded. -/
def Conn.PrepareFlags.body (K : SqliteConsts) (H : PrepareHost) (c : Conn) (sql : GoString)
    (flags : Nat) (sqlPtr stmtPtr tailPtr : Nat) :
    Outcome (Option Stmt × GoString × ErrorValue) :=
  match H.prepare c.handle sqlPtr (sql.length + 1) flags stmtPtr tailPtr with
  | Except.error e => Outcome.ret (none, [], ErrorValue.call e)
  | Except.ok r0 =>
    match H.readUint32 stmtPtr with
    | Outcome.panic v => Outcome.panic v
    | Outcome.ret h =>
      let stmt : Stmt := { handle := h % 2 ^ 32 }
      match H.readUint32 tailPtr with
      | Outcome.panic v => Outcome.panic v
      | Outcome.ret t =>
        let i := t % 2 ^ 32
        let off := (i + 2 ^ 32 - sqlPtr) % 2 ^ 32
        if sql.length < off then
          Outcome.panic PanicValue.sliceBounds
        else
          let tail := sql.drop off
          match Conn.error K H.toErrorHost c.handle r0 (some sql) with
          | Outcome.panic v => Outcome.panic v
          | Outcome.ret (some e) => Outcome.ret (none, [], ErrorValue.sqlite e)
          | Outcome.ret none =>
            if stmt.handle = 0 then Outcome.ret (none, [], ErrorValue.nil)
            else Outcome.ret (some stmt, tail, ErrorValue.nil)

/-- `(c *Conn) PrepareFlags(sql, flags)`: the result is `(stmt, tail, err)`. -/
def Conn.PrepareFlags (K : SqliteConsts) (H : PrepareHost) (c : Conn) (sql : GoString)
    (flags : Nat) : Outcome (Option Stmt × GoString × ErrorValue) :=
  match Conn.newString H 0 sql with
  | Outcome.panic v => Outcome.panic v
  | Outcome.ret sqlPtr =>
    match Conn.new H 1 K.ptrlen with
    | Outcome.panic v => Outcome.panic v
    | Outcome.ret stmtPtr =>
      match Conn.new H 2 K.ptrlen with
      | Outcome.panic v => Outcome.panic v
      | Outcome.ret tailPtr =>
        runDeferredFrees H [tailPtr, stmtPtr, sqlPtr]
          (Conn.PrepareFlags.body K H c sql flags sqlPtr stmtPtr tailPtr)

/-- A translation used to instantiate the `lockErrorCode` parameter in examples:
`nil` is `_OK`, `EAGAIN` is `BUSY` (5), anything else is the default. -/
def sampleLockErrorCode (err : GoError) (deflt : Nat) : Nat :=
  if err = GoError.nil then 0
  else if err = GoError.errno freebsdConsts.EAGAIN then 5
  else deflt

/-- A run of `readLock` / `writeLock` on descriptor `fd` requesting `how` with timeout `T`
that retried until the timeout was used up and returned `busy`:
its calls are attempts separated by one sleep of a millisecond each, with nothing after the
last attempt; for `T ≥ 0` there are `T / 1ms + 1` attempts and `T / 1ms` sleeps, for
`T < 1ms` (negative `T` included) one attempt and no sleep; the time slept is a
millisecond per sleep, and for `T ≥ 0` it is at most `T` and more than `T - 1ms`. -/
def ExhaustsTimeout (fd how : Nat) (T : Int) (busy : Nat) (r : LockResult) : Prop :=
  r.calls = retrySchedule fd how Millisecond (attempts r.calls) ∧
  (0 ≤ T → attempts r.calls = (T / Millisecond).toNat + 1 ∧
    (sleeps r.calls : Int) = T / Millisecond) ∧
  (T < Millisecond → attempts r.calls = 1 ∧ sleeps r.calls = 0) ∧
  totalSleep r.calls = (sleeps r.calls : Int) * Millisecond ∧
  (0 ≤ T → totalSleep r.calls ≤ T ∧ T - Millisecond < totalSleep r.calls) ∧
  r.code = busy

/-- A run of `readLock` / `writeLock` on descriptor `fd` requesting `how` whose attempt
number `i` (counting from 0) was the last: `i + 1` attempts, `i` sleeps (one
millisecond between consecutive attempts), no sleep after the last attempt, final error
`e` and returned code `code`. -/
def StopsAt (fd how : Nat) (i : Nat) (e : GoError) (code : Nat) (r : LockResult) : Prop :=
  attempts r.calls = i + 1 ∧
  sleeps r.calls = i ∧
  r.calls.getLast? = some (SysCall.flock fd how) ∧
  r.calls = retrySchedule fd how Millisecond (i + 1) ∧
  r.err = e ∧
  r.code = code

/-- Host answers used in examples: the first attempt is answered `EAGAIN`, every later
one with a hard error (errno 5, an input/output error). -/
def busyThenHardError (k : Nat) : GoError :=
  if k = 0 then GoError.errno 35 else GoError.errno 5

/-- A host for `checkLock` examples: the query succeeds and reports a write lock
(`F_WRLCK`, 3) held by another process. -/
def fcntlReportsLock (_fd _cmd : Nat) (lk : Flock_t) : GoError × Flock_t :=
  (GoError.nil, { lk with Type_ := 3 })

/-- A host for `checkLock` examples: the query fails with `EBADF` (9). -/
def fcntlFails (_fd _cmd : Nat) (lk : Flock_t) : GoError × Flock_t :=
  (GoError.errno 9, lk)

/-- A module for examples, as `Conn.error` sees it: it has a message at 2048, no error
offset, and the text of the result code at 4096; both strings are terminated and short. -/
def sampleErrorHost : ErrorHost :=
  { errmsg := fun _ => some 2048,
    erroff := fun _ => some MaxUint32,
    errstr := fun _ => some 4096,
    readString := fun p _ =>
      Outcome.ret (if p = 2048 then ascii "near" else ascii "not an error") }

/-- A module for examples whose error message at 2048 has no terminator within the 512
bytes (and one more) that `Conn.error` lets `readString` look at, so that the read panics. -/
def longMessageHost : ErrorHost :=
  { errmsg := fun _ => some 2048,
    erroff := fun _ => some MaxUint32,
    errstr := fun _ => some 4096,
    readString := fun p _ =>
      if p = 2048 then Outcome.panic (PanicValue.memory "missing NUL terminator")
      else Outcome.ret (ascii "SQL logic error") }

/-- A module for examples whose `close` answers `r`. -/
def closeAnswers (r : Except String Nat) : CloseHost :=
  { toErrorHost := sampleErrorHost, close := fun _ => r, modClose := ErrorValue.nil }

/-- A module for examples whose allocations succeed (at 1024, 1088, 1152), whose `free`
succeeds, whose `prepare` answers `rc`, leaving the statement handle `stmt` in the statement
slot and `tail` in the tail slot, and which reports errors as `E` does. -/
def prepareAnswersWith (E : ErrorHost) (rc stmt tail : Nat) : PrepareHost :=
  { toErrorHost := E,
    malloc := fun k _ => Except.ok (1024 + 64 * k),
    free := fun _ => none,
    prepare := fun _ _ _ _ _ _ => Except.ok rc,
    view := fun _ _ => Outcome.ret (),
    readUint32 := fun p => Outcome.ret (if p = 1088 then stmt else tail) }

/-- The module `prepareAnswersWith` with short, terminated error strings. -/
def prepareAnswers (rc stmt tail : Nat) : PrepareHost :=
  prepareAnswersWith sampleErrorHost rc stmt tail

/-- The result code `rc` is one of the out-of-memory codes on which `Conn.error` panics. -/
def isOOM (K : SqliteConsts) (rc : Nat) : Prop :=
  K.Code { code := rc, str := [], msg := [], sql := [] } = K.NOMEM ∨
  K.ExtendedCode { code := rc, str := [], msg := [], sql := [] } = K.IOERR_NOMEM

/-- The strings that `Conn.error` reads for the result code `rc` are there to be read: where
the module answers `errmsg` or `errstr` with a pointer, `readString` returns. -/
def messagesReadable (H : ErrorHost) (handle rc : Nat) : Prop :=
  (∀ r0, H.errmsg handle = some r0 → ∃ m, H.readString (r0 % 2 ^ 32) 512 = Outcome.ret m) ∧
  (∀ r0, H.errstr rc = some r0 → ∃ s, H.readString (r0 % 2 ^ 32) 512 = Outcome.ret s)

/-! ## Theorems -/

theorem lor_eq_zero_iff (a b : Nat) : a ||| b = 0 ↔ a = 0 ∧ b = 0 := by
  constructor
  · intro h
    have hbit : ∀ i, a.testBit i = false ∧ b.testBit i = false := by
      intro i
      have hi : (a ||| b).testBit i = false := by rw [h]; exact Nat.zero_testBit i
      rw [Nat.testBit_or, Bool.or_eq_false_iff] at hi
      exact hi
    constructor
    · exact Nat.eq_of_testBit_eq (fun i => by rw [(hbit i).1, Nat.zero_testBit])
    · exact Nat.eq_of_testBit_eq (fun i => by rw [(hbit i).2, Nat.zero_testBit])
  · rintro ⟨rfl, rfl⟩
    rfl

theorem and_lor_ne_zero_iff (x a b : Nat) :
    x &&& (a ||| b) ≠ 0 ↔ (x &&& a ≠ 0 ∨ x &&& b ≠ 0) := by
  rw [Nat.and_or_distrib_left, Ne, lor_eq_zero_iff]
  tauto

theorem retrySchedule_succ_succ (fd how : Nat) (d : Int) (n : Nat) :
    retrySchedule fd how d (n + 2) =
      SysCall.flock fd how :: SysCall.sleep d :: retrySchedule fd how d (n + 1) := rfl

theorem attempts_retrySchedule (fd how : Nat) (d : Int) (n : Nat) :
    attempts (retrySchedule fd how d n) = n := by
  induction n using Nat.strongRecOn with
  | _ n ih =>
    match n with
    | 0 => rfl
    | 1 => rfl
    | n + 2 =>
      rw [retrySchedule_succ_succ]
      simp only [attempts]
      rw [ih (n + 1) (by omega)]

theorem sleeps_retrySchedule (fd how : Nat) (d : Int) (n : Nat) :
    sleeps (retrySchedule fd how d (n + 1)) = n := by
  induction n with
  | zero => rfl
  | succ n ih =>
    rw [retrySchedule_succ_succ]
    simp only [sleeps]
    rw [ih]

theorem totalSleep_retrySchedule (fd how : Nat) (d : Int) (n : Nat) :
    totalSleep (retrySchedule fd how d (n + 1)) = (n : Int) * d := by
  induction n with
  | zero => simp [retrySchedule, totalSleep]
  | succ n ih =>
    rw [retrySchedule_succ_succ]
    simp only [totalSleep]
    rw [ih]
    push_cast
    ring

theorem getLast_retrySchedule (fd how : Nat) (d : Int) (n : Nat) :
    (retrySchedule fd how d (n + 1)).getLast? = some (SysCall.flock fd how) := by
  induction n with
  | zero => rfl
  | succ n ih =>
    rw [retrySchedule_succ_succ]
    cases hrs : retrySchedule fd how d (n + 1) with
    | nil => rw [hrs] at ih; simp at ih
    | cons c cs =>
      rw [hrs] at ih
      simp only [List.getLast?_cons_cons]
      exact ih

/-- One step of the retry loop. -/
theorem lockLoop_unfold (U : UnixConsts) (fd how : Nat) (res : Nat → GoError) (k : Nat)
    (timeout : Int) :
    lockLoop U fd how res k timeout =
      if asErrno (res k) ≠ U.EAGAIN then (res k, [SysCall.flock fd how])
      else if timeout < Millisecond then (res k, [SysCall.flock fd how])
      else ((lockLoop U fd how res (k + 1) (timeout - Millisecond)).1,
        SysCall.flock fd how :: SysCall.sleep Millisecond ::
          (lockLoop U fd how res (k + 1) (timeout - Millisecond)).2) := by
  rw [lockLoop]

/-- Shape of every run of the retry loop: it makes `n + 1` attempts for some `n`, the
first `n` of which were answered `EAGAIN` and followed by a sleep that the remaining
timeout still covered, and it stops at attempt `n` because that answer is not `EAGAIN`
or because less than a millisecond of timeout is left. -/
theorem lockLoop_shape (U : UnixConsts) (fd how : Nat) (res : Nat → GoError) :
    ∀ (m : Nat) (k : Nat) (timeout : Int), timeout.toNat = m →
      ∃ n : Nat,
        lockLoop U fd how res k timeout =
          (res (k + n), retrySchedule fd how Millisecond (n + 1)) ∧
        (∀ j, j < n → asErrno (res (k + j)) = U.EAGAIN) ∧
        (n = 0 ∨ (n : Int) * Millisecond ≤ timeout) ∧
        (asErrno (res (k + n)) ≠ U.EAGAIN ∨ timeout - (n : Int) * Millisecond < Millisecond) := by
  intro m
  induction m using Nat.strongRecOn with
  | _ m ih =>
    intro k timeout hm
    have hms : Millisecond = 1000000 := rfl
    by_cases h1 : asErrno (res k) ≠ U.EAGAIN
    · refine ⟨0, ?_, ?_, Or.inl rfl, Or.inl h1⟩
      · rw [lockLoop_unfold, if_pos h1]; rfl
      · intro j hj; omega
    · by_cases h2 : timeout < Millisecond
      · refine ⟨0, ?_, ?_, Or.inl rfl, Or.inr ?_⟩
        · rw [lockLoop_unfold, if_neg h1, if_pos h2]; rfl
        · intro j hj; omega
        · simpa using h2
      · obtain ⟨n, hrun, hall, hle, hstop⟩ :=
          ih (timeout - Millisecond).toNat (by omega) (k + 1) (timeout - Millisecond) rfl
        refine ⟨n + 1, ?_, ?_, Or.inr ?_, ?_⟩
        · rw [lockLoop_unfold, if_neg h1, if_neg h2, hrun, retrySchedule_succ_succ]
          simp only [Nat.add_assoc, Nat.add_comm 1 n]
        · intro j hj
          match j with
          | 0 => simpa using h1
          | j + 1 =>
            have := hall j (by omega)
            rw [show k + (j + 1) = k + 1 + j by omega]
            exact this
        · have e : ((n : Int) + 1) * Millisecond = (n : Int) * Millisecond + Millisecond := by
            ring
          push_cast
          rcases hle with h0 | hle
          · subst h0; simp; omega
          · omega
        · have e : ((n : Int) + 1) * Millisecond = (n : Int) * Millisecond + Millisecond := by
            ring
          rw [show k + (n + 1) = k + 1 + n by omega]
          rcases hstop with h | h
          · exact Or.inl h
          · right; push_cast; omega

theorem asErrno_eq_errno (e : GoError) (a : Nat) (ha : a ≠ 0) (h : asErrno e = a) :
    e = GoError.errno a := by
  cases e with
  | nil => exact absurd h.symm ha
  | errno x => simp only [asErrno] at h; rw [h]
  | other s => exact absurd h.symm ha

/-- When every attempt is answered `EAGAIN`, the loop runs the full retry schedule. -/
theorem lockLoop_all_EAGAIN (U : UnixConsts) (fd how : Nat) (res : Nat → GoError) (timeout : Int)
    (hres : ∀ k, res k = GoError.errno U.EAGAIN) :
    lockLoop U fd how res 0 timeout =
      (GoError.errno U.EAGAIN,
        retrySchedule fd how Millisecond ((timeout / Millisecond).toNat + 1)) := by
  obtain ⟨n, hrun, -, hle, hstop⟩ := lockLoop_shape U fd how res timeout.toNat 0 timeout rfl
  have hms : Millisecond = 1000000 := rfl
  have hn : n = (timeout / Millisecond).toNat := by
    rcases hstop with h | h
    · exact absurd (by rw [hres]; rfl) h
    · rw [hms] at h hle ⊢
      rcases hle with h0 | hle
      · subst h0
        simp only [Int.Nat.cast_ofNat_Int] at h
        omega
      · omega
  rw [hrun, hres, ← hn]

/-- An attempt that was made and was not answered `EAGAIN` ends the loop. -/
theorem lockLoop_stop (U : UnixConsts) (fd how : Nat) (res : Nat → GoError) (timeout : Int)
    (hE : U.EAGAIN ≠ 0) (i : Nat)
    (hi : i < attempts (lockLoop U fd how res 0 timeout).2)
    (hne : res i ≠ GoError.errno U.EAGAIN) :
    lockLoop U fd how res 0 timeout = (res i, retrySchedule fd how Millisecond (i + 1)) := by
  obtain ⟨n, hrun, hall, -, -⟩ := lockLoop_shape U fd how res timeout.toNat 0 timeout rfl
  rw [hrun] at hi ⊢
  simp only [attempts_retrySchedule] at hi
  have hin : i = n := by
    by_contra hcon
    have hlt : i < n := by omega
    have h := hall i hlt
    rw [Nat.zero_add] at h
    exact hne (asErrno_eq_errno _ _ hE h)
  subst hin
  rw [Nat.zero_add]

/-- The loop always makes at least one attempt, and its final `err` is the answer to the
last attempt. -/
theorem lockLoop_last (U : UnixConsts) (fd how : Nat) (res : Nat → GoError) (timeout : Int) :
    0 < attempts (lockLoop U fd how res 0 timeout).2 ∧
    (lockLoop U fd how res 0 timeout).1 =
      res (attempts (lockLoop U fd how res 0 timeout).2 - 1) := by
  obtain ⟨n, hrun, -, -, -⟩ := lockLoop_shape U fd how res timeout.toNat 0 timeout rfl
  rw [hrun]
  simp only [attempts_retrySchedule]
  constructor
  · omega
  · simp

/-- The final `err` of the loop does not depend on which lock is requested. -/
theorem lockLoop_err_how (U : UnixConsts) (fd how how2 : Nat) (res : Nat → GoError)
    (timeout : Int) :
    (lockLoop U fd how res 0 timeout).1 = (lockLoop U fd how2 res 0 timeout).1 := by
  obtain ⟨n, hrun, hall, hle, hstop⟩ := lockLoop_shape U fd how res timeout.toNat 0 timeout rfl
  obtain ⟨n2, hrun2, hall2, hle2, hstop2⟩ :=
    lockLoop_shape U fd how2 res timeout.toNat 0 timeout rfl
  rw [hrun, hrun2]
  have hms : Millisecond = 1000000 := rfl
  have e1 : ((n : Int) + 1) * Millisecond = (n : Int) * Millisecond + Millisecond := by ring
  suffices h : n = n2 by rw [h]
  rcases Nat.lt_trichotomy n n2 with hlt | heq | hgt
  · exfalso
    have h1 := hall2 n hlt
    rcases hstop with h | h
    · exact h h1
    · rcases hle2 with h0 | hle2
      · omega
      · have : ((n : Int) + 1) * Millisecond ≤ (n2 : Int) * Millisecond := by
          have : (n : Int) + 1 ≤ n2 := by omega
          exact Int.mul_le_mul_of_nonneg_right this (by rw [hms]; omega)
        omega
  · exact heq
  · exfalso
    have h1 := hall n2 hgt
    rcases hstop2 with h | h
    · exact h h1
    · rcases hle with h0 | hle
      · omega
      · have : ((n2 : Int) + 1) * Millisecond ≤ (n : Int) * Millisecond := by
          have : (n2 : Int) + 1 ≤ n := by omega
          exact Int.mul_le_mul_of_nonneg_right this (by rw [hms]; omega)
        have e2 : ((n2 : Int) + 1) * Millisecond = (n2 : Int) * Millisecond + Millisecond := by
          ring
        omega

/-- C1: `NewSharedMemory path flags` is nil exactly when `flags` lacks `OPEN_MAIN_DB` or
contains `OPEN_DELETEONCLOSE` or `OPEN_MEMORY`; otherwise it is a handle with the given
path whose `readOnly` is true exactly when `flags` contains `OPEN_READONLY`. -/
theorem NewSharedMemory_spec (K : OpenFlagConsts) (path : String) (flags : Nat) :
    (NewSharedMemory K path flags = none ↔
      (¬ hasFlag flags K.OPEN_MAIN_DB ∨ hasFlag flags K.OPEN_DELETEONCLOSE
        ∨ hasFlag flags K.OPEN_MEMORY)) ∧
    (¬ (¬ hasFlag flags K.OPEN_MAIN_DB ∨ hasFlag flags K.OPEN_DELETEONCLOSE
        ∨ hasFlag flags K.OPEN_MEMORY) →
      ∃ shm, NewSharedMemory K path flags = some shm ∧ shm.path = path ∧
        (shm.readOnly = true ↔ hasFlag flags K.OPEN_READONLY)) := by
  have key : (flags &&& K.OPEN_MAIN_DB = 0 ∨
        flags &&& (K.OPEN_DELETEONCLOSE ||| K.OPEN_MEMORY) ≠ 0) ↔
      (¬ hasFlag flags K.OPEN_MAIN_DB ∨ hasFlag flags K.OPEN_DELETEONCLOSE
        ∨ hasFlag flags K.OPEN_MEMORY) := by
    unfold hasFlag
    rw [and_lor_ne_zero_iff]
    tauto
  constructor
  · unfold NewSharedMemory
    by_cases h : flags &&& K.OPEN_MAIN_DB = 0 ∨
        flags &&& (K.OPEN_DELETEONCLOSE ||| K.OPEN_MEMORY) ≠ 0
    · simp only [if_pos h, true_iff]
      exact key.mp h
    · simp only [if_neg h]
      constructor
      · intro h2; cases h2
      · intro h2; exact absurd (key.mpr h2) h
  · intro hn
    have h : ¬ (flags &&& K.OPEN_MAIN_DB = 0 ∨
        flags &&& (K.OPEN_DELETEONCLOSE ||| K.OPEN_MEMORY) ≠ 0) := fun h => hn (key.mp h)
    refine ⟨{ path := path, readOnly := decide (flags &&& K.OPEN_READONLY ≠ 0) }, ?_, rfl, ?_⟩
    · unfold NewSharedMemory
      rw [if_neg h]
    · unfold hasFlag
      simp

/-- C1 witness: a read-only main database (`OPEN_READONLY | OPEN_MAIN_DB`). -/
theorem NewSharedMemory_spec_witness :
    ¬ (¬ hasFlag 0x101 sqliteOpenFlags.OPEN_MAIN_DB
        ∨ hasFlag 0x101 sqliteOpenFlags.OPEN_DELETEONCLOSE
        ∨ hasFlag 0x101 sqliteOpenFlags.OPEN_MEMORY) ∧
    ∃ shm, NewSharedMemory sqliteOpenFlags "test.db-shm" 0x101 = some shm ∧
      shm.path = "test.db-shm" ∧
      (shm.readOnly = true ↔ hasFlag 0x101 sqliteOpenFlags.OPEN_READONLY) :=
  ⟨by decide, (NewSharedMemory_spec sqliteOpenFlags "test.db-shm" 0x101).2 (by decide)⟩

theorem exhaustsTimeout_of_schedule (fd how : Nat) (T : Int) (busy : Nat) (r : LockResult)
    (hcalls : r.calls = retrySchedule fd how Millisecond ((T / Millisecond).toNat + 1))
    (hcode : r.code = busy) : ExhaustsTimeout fd how T busy r := by
  have hms : Millisecond = 1000000 := rfl
  have ha : attempts r.calls = (T / Millisecond).toNat + 1 := by
    rw [hcalls, attempts_retrySchedule]
  have hs : sleeps r.calls = (T / Millisecond).toNat := by
    rw [hcalls, sleeps_retrySchedule]
  have ht : totalSleep r.calls = ((T / Millisecond).toNat : Int) * Millisecond := by
    rw [hcalls, totalSleep_retrySchedule]
  refine ⟨?_, ?_, ?_, ?_, ?_, hcode⟩
  · rw [ha]; exact hcalls
  · intro h0
    refine ⟨ha, ?_⟩
    rw [hs, hms]
    omega
  · intro hlt
    rw [ha, hs, hms]
    rw [hms] at hlt
    omega
  · rw [ht, hs]
  · intro h0
    rw [ht, hms]
    omega

theorem stopsAt_of_run (fd how : Nat) (i : Nat) (e : GoError) (code : Nat) (r : LockResult)
    (hcalls : r.calls = retrySchedule fd how Millisecond (i + 1))
    (herr : r.err = e) (hcode : r.code = code) : StopsAt fd how i e code r := by
  refine ⟨?_, ?_, ?_, hcalls, herr, hcode⟩
  · rw [hcalls, attempts_retrySchedule]
  · rw [hcalls, sleeps_retrySchedule]
  · rw [hcalls, getLast_retrySchedule]

/-- C2: against a host that answers every lock attempt with `EAGAIN`, `readLock` and
`writeLock` with timeout `T` terminate (they are total functions), make `T / 1ms + 1`
attempts when `T ≥ 0` and one attempt when `T < 1ms` (negative `T` included), sleep one
millisecond between consecutive attempts and never after the last, so that for `T ≥ 0` the
time slept is `(T / 1ms)` milliseconds, at most `T` and more than `T - 1ms`; the code
returned is the `lockErrorCode` translation of `EAGAIN`. -/
theorem lock_timeout_all_EAGAIN (C : LockCodes) (U : UnixConsts)
    (lockErrorCode : GoError → Nat → Nat) (fd : Nat) (res : Nat → GoError)
    (start len : Int) (T : Int) (hres : ∀ k, res k = GoError.errno U.EAGAIN) :
    ExhaustsTimeout fd (U.LOCK_SH ||| U.LOCK_NB) T
      (lockErrorCode (GoError.errno U.EAGAIN) C.IOERR_RDLOCK)
      (readLock C U lockErrorCode fd res start len T) ∧
    ExhaustsTimeout fd (U.LOCK_EX ||| U.LOCK_NB) T
      (lockErrorCode (GoError.errno U.EAGAIN) C.IOERR_RDLOCK)
      (writeLock C U lockErrorCode fd res start len T) := by
  constructor
  · apply exhaustsTimeout_of_schedule
    · simp only [readLock]; rw [lockLoop_all_EAGAIN U fd _ res T hres]
    · simp only [readLock]; rw [lockLoop_all_EAGAIN U fd _ res T hres]
  · apply exhaustsTimeout_of_schedule
    · simp only [writeLock]; rw [lockLoop_all_EAGAIN U fd _ res T hres]
    · simp only [writeLock]; rw [lockLoop_all_EAGAIN U fd _ res T hres]

/-- C2 witness: a 50ms timeout against a host that always answers `EAGAIN`. -/
theorem lock_timeout_all_EAGAIN_witness :
    (∀ k : Nat, (fun _ => GoError.errno 35) k = GoError.errno freebsdConsts.EAGAIN) ∧
    ExhaustsTimeout 3 (freebsdConsts.LOCK_SH ||| freebsdConsts.LOCK_NB) 50000000
      (sampleLockErrorCode (GoError.errno freebsdConsts.EAGAIN) sqliteLockCodes.IOERR_RDLOCK)
      (readLock sqliteLockCodes freebsdConsts sampleLockErrorCode 3
        (fun _ => GoError.errno 35) 0 1 50000000) ∧
    ExhaustsTimeout 3 (freebsdConsts.LOCK_EX ||| freebsdConsts.LOCK_NB) 50000000
      (sampleLockErrorCode (GoError.errno freebsdConsts.EAGAIN) sqliteLockCodes.IOERR_RDLOCK)
      (writeLock sqliteLockCodes freebsdConsts sampleLockErrorCode 3
        (fun _ => GoError.errno 35) 0 1 50000000) :=
  ⟨fun _ => rfl,
    lock_timeout_all_EAGAIN sqliteLockCodes freebsdConsts sampleLockErrorCode 3
      (fun _ => GoError.errno 35) 0 1 50000000 (fun _ => rfl)⟩

/-- C3: in every run of `readLock` and `writeLock`, for every timeout and every sequence
of host answers, an attempt that was made and whose answer is not `EAGAIN` (success or a
hard error) is the last attempt, no sleep follows it, and the code returned is the
translation of that answer; in particular an answer other than `EAGAIN` to the first
attempt gives exactly one attempt and no sleep, whatever the timeout. -/
theorem lock_stops_at_non_EAGAIN (C : LockCodes) (U : UnixConsts)
    (lockErrorCode : GoError → Nat → Nat) (fd : Nat) (res : Nat → GoError)
    (start len : Int) (T : Int) (hE : U.EAGAIN ≠ 0) :
    (∀ i, i < attempts (readLock C U lockErrorCode fd res start len T).calls →
      res i ≠ GoError.errno U.EAGAIN →
      StopsAt fd (U.LOCK_SH ||| U.LOCK_NB) i (res i) (lockErrorCode (res i) C.IOERR_RDLOCK)
        (readLock C U lockErrorCode fd res start len T)) ∧
    (∀ i, i < attempts (writeLock C U lockErrorCode fd res start len T).calls →
      res i ≠ GoError.errno U.EAGAIN →
      StopsAt fd (U.LOCK_EX ||| U.LOCK_NB) i (res i) (lockErrorCode (res i) C.IOERR_RDLOCK)
        (writeLock C U lockErrorCode fd res start len T)) ∧
    (res 0 ≠ GoError.errno U.EAGAIN →
      (readLock C U lockErrorCode fd res start len T).calls
          = [SysCall.flock fd (U.LOCK_SH ||| U.LOCK_NB)] ∧
      (readLock C U lockErrorCode fd res start len T).code
          = lockErrorCode (res 0) C.IOERR_RDLOCK ∧
      (writeLock C U lockErrorCode fd res start len T).calls
          = [SysCall.flock fd (U.LOCK_EX ||| U.LOCK_NB)] ∧
      (writeLock C U lockErrorCode fd res start len T).code
          = lockErrorCode (res 0) C.IOERR_RDLOCK) := by
  refine ⟨?_, ?_, ?_⟩
  · intro i hi hne
    have h := lockLoop_stop U fd (U.LOCK_SH ||| U.LOCK_NB) res T hE i hi hne
    apply stopsAt_of_run <;> simp only [readLock] <;> rw [h]
  · intro i hi hne
    have h := lockLoop_stop U fd (U.LOCK_EX ||| U.LOCK_NB) res T hE i hi hne
    apply stopsAt_of_run <;> simp only [writeLock] <;> rw [h]
  · intro hne
    have hr := lockLoop_stop U fd (U.LOCK_SH ||| U.LOCK_NB) res T hE 0
      (lockLoop_last U fd _ res T).1 hne
    have hw := lockLoop_stop U fd (U.LOCK_EX ||| U.LOCK_NB) res T hE 0
      (lockLoop_last U fd _ res T).1 hne
    simp only [readLock, writeLock]
    rw [hr, hw]
    exact ⟨rfl, rfl, rfl, rfl⟩

/-- C3 witness: the second attempt is answered with a hard error during a 50ms timeout. -/
theorem lock_stops_at_non_EAGAIN_witness :
    freebsdConsts.EAGAIN ≠ 0 ∧
    1 < attempts (readLock sqliteLockCodes freebsdConsts sampleLockErrorCode 3
      busyThenHardError 0 1 50000000).calls ∧
    busyThenHardError 1 ≠ GoError.errno freebsdConsts.EAGAIN ∧
    StopsAt 3 (freebsdConsts.LOCK_SH ||| freebsdConsts.LOCK_NB) 1 (busyThenHardError 1)
      (sampleLockErrorCode (busyThenHardError 1) sqliteLockCodes.IOERR_RDLOCK)
      (readLock sqliteLockCodes freebsdConsts sampleLockErrorCode 3
        busyThenHardError 0 1 50000000) :=
  have h1 : 1 < attempts (readLock sqliteLockCodes freebsdConsts sampleLockErrorCode 3
      busyThenHardError 0 1 50000000).calls := by
    simp [readLock, lockLoop, asErrno, freebsdConsts, Millisecond, attempts, busyThenHardError]
  ⟨by decide, h1, by decide,
    (lock_stops_at_non_EAGAIN sqliteLockCodes freebsdConsts sampleLockErrorCode 3
      busyThenHardError 0 1 50000000 (by decide)).1 1 h1 (by decide)⟩

/-- C9: `writeLock` and `readLock` both return `lockErrorCode err IOERR_RDLOCK` for their
final host answer `err` (the answer to the last attempt); so whenever a `writeLock` run and a
`readLock` run end with the same `err` they return the same code, and on the same host
answers and timeout they return the same code. -/
theorem writeLock_code_eq_readLock_code (C : LockCodes) (U : UnixConsts)
    (lockErrorCode : GoError → Nat → Nat) (fd : Nat) (res : Nat → GoError)
    (start len : Int) (T : Int) :
    (writeLock C U lockErrorCode fd res start len T).code =
      lockErrorCode (writeLock C U lockErrorCode fd res start len T).err C.IOERR_RDLOCK ∧
    (readLock C U lockErrorCode fd res start len T).code =
      lockErrorCode (readLock C U lockErrorCode fd res start len T).err C.IOERR_RDLOCK ∧
    (writeLock C U lockErrorCode fd res start len T).err =
      res (attempts (writeLock C U lockErrorCode fd res start len T).calls - 1) ∧
    (readLock C U lockErrorCode fd res start len T).err =
      res (attempts (readLock C U lockErrorCode fd res start len T).calls - 1) ∧
    (writeLock C U lockErrorCode fd res start len T).code =
      (readLock C U lockErrorCode fd res start len T).code ∧
    (∀ (fd2 : Nat) (res2 : Nat → GoError) (start2 len2 T2 : Int),
      (readLock C U lockErrorCode fd2 res2 start2 len2 T2).err =
        (writeLock C U lockErrorCode fd res start len T).err →
      (writeLock C U lockErrorCode fd res start len T).code =
        (readLock C U lockErrorCode fd2 res2 start2 len2 T2).code) := by
  refine ⟨rfl, rfl, ?_, ?_, ?_, ?_⟩
  · exact (lockLoop_last U fd (U.LOCK_EX ||| U.LOCK_NB) res T).2
  · exact (lockLoop_last U fd (U.LOCK_SH ||| U.LOCK_NB) res T).2
  · simp only [writeLock, readLock]
    rw [lockLoop_err_how U fd (U.LOCK_EX ||| U.LOCK_NB) (U.LOCK_SH ||| U.LOCK_NB) res T]
  · intro fd2 res2 start2 len2 T2 h
    simp only [writeLock, readLock] at h ⊢
    rw [h]

/-- C9 witness: a write lock refused with a hard error at once and a read lock refused with
the same error after one retry return the same code. -/
theorem writeLock_code_eq_readLock_code_witness :
    (readLock sqliteLockCodes freebsdConsts sampleLockErrorCode 4
        busyThenHardError 0 1 50000000).err =
      (writeLock sqliteLockCodes freebsdConsts sampleLockErrorCode 3
        (fun _ => GoError.errno 5) 0 1 0).err ∧
    (writeLock sqliteLockCodes freebsdConsts sampleLockErrorCode 3
        (fun _ => GoError.errno 5) 0 1 0).code =
      (readLock sqliteLockCodes freebsdConsts sampleLockErrorCode 4
        busyThenHardError 0 1 50000000).code :=
  have h : (readLock sqliteLockCodes freebsdConsts sampleLockErrorCode 4
        busyThenHardError 0 1 50000000).err =
      (writeLock sqliteLockCodes freebsdConsts sampleLockErrorCode 3
        (fun _ => GoError.errno 5) 0 1 0).err := by
    simp [readLock, writeLock, lockLoop, asErrno, freebsdConsts, Millisecond, busyThenHardError]
  ⟨h, (writeLock_code_eq_readLock_code sqliteLockCodes freebsdConsts sampleLockErrorCode 3
      (fun _ => GoError.errno 5) 0 1 0).2.2.2.2.2 4 busyThenHardError 0 1 50000000 h⟩

/-- C4: `Allocate file size` never shrinks the file.  When the seek to the end succeeds and
`size ≤ L` (the current length) only the seek is issued, the file is unchanged and nil is
returned; when the seek succeeds and `size > L` a truncate to exactly `size` is issued and
its result returned; after every call that returns nil the length is `max L size`, hence at
least `size`; when the seek fails its error is returned and the file is unchanged; and in
every case the length afterwards is at least `L`. -/
theorem Allocate_never_shrinks (file : OsFile) (size : Int) :
    (file.seekErr = GoError.nil → size ≤ file.length →
      Allocate file size =
        { err := GoError.nil, file := file, calls := [SysCall.seekEnd file.fd] }) ∧
    (file.seekErr = GoError.nil → file.length < size →
      (Allocate file size).calls = [SysCall.seekEnd file.fd, SysCall.truncate file.fd size] ∧
      (Allocate file size).err = file.truncErr) ∧
    ((Allocate file size).err = GoError.nil →
      (Allocate file size).file.length = max file.length size ∧
      size ≤ (Allocate file size).file.length) ∧
    (file.seekErr ≠ GoError.nil →
      Allocate file size =
        { err := file.seekErr, file := file, calls := [SysCall.seekEnd file.fd] }) ∧
    file.length ≤ (Allocate file size).file.length := by
  unfold Allocate OsFile.SeekEnd OsFile.Truncate
  by_cases hs : file.seekErr = GoError.nil
  · by_cases hl : size ≤ file.length
    · simp [hs, hl]
    · have hlt : file.length < size := by omega
      by_cases ht : file.truncErr = GoError.nil
      · simp [hs, hl, ht, hlt, le_of_lt hlt]
      · simp [hs, hl, ht, hlt]
  · simp [hs]

/-- C4 witness: a 4096-byte file is extended to 8192 bytes. -/
theorem Allocate_never_shrinks_witness :
    (Allocate { fd := 3, length := 4096, seekErr := GoError.nil, truncErr := GoError.nil }
      8192).calls = [SysCall.seekEnd 3, SysCall.truncate 3 8192] ∧
    (Allocate { fd := 3, length := 4096, seekErr := GoError.nil, truncErr := GoError.nil }
      8192).file.length = max 4096 8192 ∧
    Allocate { fd := 3, length := 4096, seekErr := GoError.nil, truncErr := GoError.nil }
      4096 = { err := GoError.nil,
               file := { fd := 3, length := 4096, seekErr := GoError.nil,
                         truncErr := GoError.nil },
               calls := [SysCall.seekEnd 3] } ∧
    Allocate { fd := 3, length := 4096, seekErr := GoError.errno 9, truncErr := GoError.nil }
      8192 = { err := GoError.errno 9,
               file := { fd := 3, length := 4096, seekErr := GoError.errno 9,
                         truncErr := GoError.nil },
               calls := [SysCall.seekEnd 3] } :=
  ⟨((Allocate_never_shrinks
      { fd := 3, length := 4096, seekErr := GoError.nil, truncErr := GoError.nil } 8192).2.1
      rfl (by decide)).1,
   ((Allocate_never_shrinks
      { fd := 3, length := 4096, seekErr := GoError.nil, truncErr := GoError.nil } 8192).2.2.1
      (by decide)).1,
   (Allocate_never_shrinks
      { fd := 3, length := 4096, seekErr := GoError.nil, truncErr := GoError.nil } 4096).1
      rfl (by decide),
   (Allocate_never_shrinks
      { fd := 3, length := 4096, seekErr := GoError.errno 9, truncErr := GoError.nil }
      8192).2.2.2.1 (by decide)⟩

/-- C5: `unlock file start len` issues the whole-file release `Flock(fd, LOCK_UN)` exactly
when `start = 0` and `len = 0` (and then, when the host accepts it, the handle holds no lock
and `_OK` is returned); it returns `IOERR_UNLOCK` exactly when `start = 0`, `len = 0` and the
release fails; for every other `(start, len)` it issues no call, leaves the handle and the
lock it holds unchanged and returns `_OK`. -/
theorem unlock_spec (C : LockCodes) (U : UnixConsts) (file : FlockFile) (res : GoError)
    (start len : Int) (hcodes : C.IOERR_UNLOCK ≠ C._OK) :
    ((unlock C U file res start len).calls = [SysCall.flock file.fd U.LOCK_UN] ↔
      (start = 0 ∧ len = 0)) ∧
    (start = 0 ∧ len = 0 → res = GoError.nil →
      (unlock C U file res start len).file.held = none ∧
      (unlock C U file res start len).code = C._OK) ∧
    ((unlock C U file res start len).code = C.IOERR_UNLOCK ↔
      (start = 0 ∧ len = 0 ∧ res ≠ GoError.nil)) ∧
    (¬ (start = 0 ∧ len = 0) →
      (unlock C U file res start len).calls = [] ∧
      (unlock C U file res start len).file = file ∧
      (unlock C U file res start len).code = C._OK) := by
  unfold unlock FlockFile.flockUnlock
  by_cases h : start = 0 ∧ len = 0
  · by_cases hr : res = GoError.nil
    · simp [h, hr, hcodes.symm]
    · simp [h, hr]
  · simp only [if_neg h]
    refine ⟨?_, ?_, ?_, ?_⟩
    · simp [h]
    · intro h2; exact absurd h2 h
    · constructor
      · intro h2; exact absurd h2.symm hcodes
      · rintro ⟨h1, h2, -⟩; exact absurd ⟨h1, h2⟩ h
    · intro _; simp

/-- C5 witness: a whole-file release that the host accepts, and a byte-range release. -/
theorem unlock_spec_witness :
    sqliteLockCodes.IOERR_UNLOCK ≠ sqliteLockCodes._OK ∧
    ((unlock sqliteLockCodes freebsdConsts { fd := 3, held := some 2 } GoError.nil 0 0).file.held
        = none ∧
      (unlock sqliteLockCodes freebsdConsts { fd := 3, held := some 2 } GoError.nil 0 0).code
        = sqliteLockCodes._OK) ∧
    ((unlock sqliteLockCodes freebsdConsts { fd := 3, held := some 2 } GoError.nil
        1073741824 1).calls = [] ∧
      (unlock sqliteLockCodes freebsdConsts { fd := 3, held := some 2 } GoError.nil
        1073741824 1).file = { fd := 3, held := some 2 } ∧
      (unlock sqliteLockCodes freebsdConsts { fd := 3, held := some 2 } GoError.nil
        1073741824 1).code = sqliteLockCodes._OK) :=
  ⟨by decide,
   (unlock_spec sqliteLockCodes freebsdConsts { fd := 3, held := some 2 } GoError.nil 0 0
      (by decide)).2.1 ⟨rfl, rfl⟩ rfl,
   (unlock_spec sqliteLockCodes freebsdConsts { fd := 3, held := some 2 } GoError.nil
      1073741824 1 (by decide)).2.2.2 (by decide)⟩

/-- C6: `checkLock file start len` issues exactly one call, the `F_GETLK` query for a read
lock over `[start, start + len)`, and no call that takes or drops a lock; when the query
fails it returns `(false, IOERR_CHECKRESERVEDLOCK)`, otherwise `(held, _OK)` where `held` is
true exactly when the type the query reports is not `F_UNLCK`. -/
theorem checkLock_spec (C : LockCodes) (U : UnixConsts) (fd : Nat)
    (fcntl : Nat → Nat → Flock_t → GoError × Flock_t) (start len : Int) :
    (checkLock C U fd fcntl start len).2 =
      [SysCall.fcntlFlock fd U.F_GETLK { Type_ := U.F_RDLCK, Start := start, Len := len }] ∧
    attempts (checkLock C U fd fcntl start len).2 = 0 ∧
    ((fcntl fd U.F_GETLK { Type_ := U.F_RDLCK, Start := start, Len := len }).1 ≠ GoError.nil →
      (checkLock C U fd fcntl start len).1 = (false, C.IOERR_CHECKRESERVEDLOCK)) ∧
    ((fcntl fd U.F_GETLK { Type_ := U.F_RDLCK, Start := start, Len := len }).1 = GoError.nil →
      (checkLock C U fd fcntl start len).1.2 = C._OK ∧
      ((checkLock C U fd fcntl start len).1.1 = true ↔
        (fcntl fd U.F_GETLK { Type_ := U.F_RDLCK, Start := start, Len := len }).2.Type_
          ≠ U.F_UNLCK)) := by
  unfold checkLock
  by_cases h : (fcntl fd U.F_GETLK { Type_ := U.F_RDLCK, Start := start, Len := len }).1
      = GoError.nil
  · simp [h, attempts]
  · simp [h, attempts]

/-- C6 witness: a query that reports a lock held by another process, and a query that
fails. -/
theorem checkLock_spec_witness :
    ((checkLock sqliteLockCodes freebsdConsts 3 fcntlReportsLock 1073741825 1).1.2
        = sqliteLockCodes._OK ∧
      ((checkLock sqliteLockCodes freebsdConsts 3 fcntlReportsLock 1073741825 1).1.1 = true ↔
        (fcntlReportsLock 3 freebsdConsts.F_GETLK
          { Type_ := freebsdConsts.F_RDLCK, Start := 1073741825, Len := 1 }).2.Type_
          ≠ freebsdConsts.F_UNLCK)) ∧
    (checkLock sqliteLockCodes freebsdConsts 3 fcntlFails 1073741825 1).1
      = (false, sqliteLockCodes.IOERR_CHECKRESERVEDLOCK) :=
  ⟨(checkLock_spec sqliteLockCodes freebsdConsts 3 fcntlReportsLock 1073741825 1).2.2.2
      (by decide),
   (checkLock_spec sqliteLockCodes freebsdConsts 3 fcntlFails 1073741825 1).2.2.1
      (by decide)⟩

theorem Conn.error.withMsg_code (H : ErrorHost) (handle : Nat) (err e : Error)
    (h : Conn.error.withMsg H handle err = Outcome.ret e) : e.code = err.code := by
  unfold Conn.error.withMsg at h
  cases hm : H.errmsg handle with
  | none => simp only [hm, Outcome.ret.injEq] at h; rw [← h]
  | some r0 =>
    cases hr : H.readString (r0 % 2 ^ 32) 512 with
    | panic v => simp only [hm, hr] at h; cases h
    | ret m => simp only [hm, hr, Outcome.ret.injEq] at h; rw [← h]

theorem Conn.error.withSql_code (H : ErrorHost) (handle : Nat) (sql : Option GoString)
    (err e : Error) (h : Conn.error.withSql H handle sql err = Outcome.ret e) :
    e.code = err.code := by
  unfold Conn.error.withSql at h
  cases sql with
  | none => cases h; rfl
  | some s =>
    cases ho : H.erroff handle with
    | none => rw [ho] at h; cases h; rfl
    | some r0 =>
      rw [ho] at h
      simp only [] at h
      split_ifs at h <;> cases h <;> rfl

theorem Conn.error.withStr_code (H : ErrorHost) (rc : Nat) (err e : Error)
    (h : Conn.error.withStr H rc err = Outcome.ret e) : e.code = err.code := by
  unfold Conn.error.withStr at h
  cases hm : H.errstr rc with
  | none => simp only [hm, Outcome.ret.injEq] at h; rw [← h]
  | some r0 =>
    cases hr : H.readString (r0 % 2 ^ 32) 512 with
    | panic v => simp only [hm, hr] at h; cases h
    | ret m => simp only [hm, hr, Outcome.ret.injEq] at h; rw [← h]

/-- Whatever the module answers, when `Conn.error` returns on a code other than `_OK` it
returns an `Error` carrying the code. -/
theorem Conn.error_code (K : SqliteConsts) (H : ErrorHost) (handle rc : Nat)
    (sql : Option GoString) (hrc : rc ≠ K._OK) (o : Option Error)
    (h : Conn.error K H handle rc sql = Outcome.ret o) : ∃ e, o = some e ∧ e.code = rc := by
  unfold Conn.error at h
  rw [if_neg hrc] at h
  simp only [] at h
  split_ifs at h
  cases h1 : Conn.error.withMsg H handle { code := rc, str := [], msg := [], sql := [] } with
  | panic v => simp [h1] at h
  | ret err1 =>
    cases h2 : Conn.error.withSql H handle sql err1 with
    | panic v => simp [h1, h2] at h
    | ret err2 =>
      cases h3 : Conn.error.withStr H rc err2 with
      | panic v => simp [h1, h2, h3] at h
      | ret err3 =>
        simp only [h1, h2, h3] at h
        have c1 := Conn.error.withMsg_code H handle _ _ h1
        have c2 := Conn.error.withSql_code H handle sql _ _ h2
        have c3 := Conn.error.withStr_code H rc _ _ h3
        have hcode : err3.code = rc := by rw [c3, c2, c1]
        simp only [Outcome.ret.injEq] at h
        refine ⟨_, h.symm, ?_⟩
        split_ifs
        · exact hcode
        · exact hcode

/-- `Conn.error` on a code that is neither `_OK` nor out-of-memory returns an `Error`
carrying the code, provided the strings it reads are readable and the error offset (when an
sql text is passed and the module reports an offset) lies within the sql text. -/
theorem Conn.error_ret (K : SqliteConsts) (H : ErrorHost) (handle rc : Nat)
    (sql : Option GoString) (hrc : rc ≠ K._OK) (hoom : ¬ isOOM K rc)
    (hread : messagesReadable H handle rc)
    (hoff : ∀ s r0, sql = some s → H.erroff handle = some r0 → r0 ≠ MaxUint32 →
      r0 ≤ s.length) :
    ∃ e, Conn.error K H handle rc sql = Outcome.ret (some e) ∧ e.code = rc := by
  have h1 : ∃ err1, Conn.error.withMsg H handle { code := rc, str := [], msg := [], sql := [] }
      = Outcome.ret err1 := by
    unfold Conn.error.withMsg
    cases hm : H.errmsg handle with
    | none => exact ⟨_, rfl⟩
    | some r0 =>
      obtain ⟨m, hmr⟩ := hread.1 r0 hm
      simp only [hmr]
      exact ⟨_, rfl⟩
  obtain ⟨err1, h1⟩ := h1
  have h2 : ∃ err2, Conn.error.withSql H handle sql err1 = Outcome.ret err2 := by
    unfold Conn.error.withSql
    cases sql with
    | none => exact ⟨_, rfl⟩
    | some s =>
      cases ho : H.erroff handle with
      | none => exact ⟨_, rfl⟩
      | some r0 =>
        by_cases hmax : r0 = MaxUint32
        · simp only [hmax, ne_eq, not_true_eq_false, if_false]
          exact ⟨_, rfl⟩
        · have hle := hoff s r0 rfl ho hmax
          simp only [ne_eq, hmax, not_false_eq_true, if_true, hle]
          exact ⟨_, rfl⟩
  obtain ⟨err2, h2⟩ := h2
  have h3 : ∃ err3, Conn.error.withStr H rc err2 = Outcome.ret err3 := by
    unfold Conn.error.withStr
    cases hm : H.errstr rc with
    | none => exact ⟨_, rfl⟩
    | some r0 =>
      obtain ⟨m, hmr⟩ := hread.2 r0 hm
      simp only [hmr]
      exact ⟨_, rfl⟩
  obtain ⟨err3, h3⟩ := h3
  have hrun : Conn.error K H handle rc sql =
      Outcome.ret (some (if err3.msg = err3.str then { err3 with msg := [] } else err3)) := by
    unfold isOOM at hoom
    unfold Conn.error
    rw [if_neg hrc]
    simp only [if_neg hoom, h1, h2, h3]
  obtain ⟨e, he, hcode⟩ := Conn.error_code K H handle rc sql hrc _ hrun
  exact ⟨e, by rw [hrun, he], hcode⟩

/-- `Conn.error` panics with `oomErr` on an out-of-memory code. -/
theorem Conn.error_oom (K : SqliteConsts) (H : ErrorHost) (handle rc : Nat)
    (sql : Option GoString) (hrc : rc ≠ K._OK) (hoom : isOOM K rc) :
    Conn.error K H handle rc sql = Outcome.panic PanicValue.oomErr := by
  unfold isOOM at hoom
  unfold Conn.error
  rw [if_neg hrc]
  simp only [if_pos hoom]

theorem Conn.error_OK (K : SqliteConsts) (H : ErrorHost) (handle : Nat)
    (sql : Option GoString) :
    Conn.error K H handle K._OK sql = Outcome.ret none := by
  unfold Conn.error
  rw [if_pos rfl]

theorem runDeferredFrees_ok {α : Type} (H : PrepareHost) (hfree : ∀ p, H.free p = none)
    (ps : List Nat) (o : Outcome α) : runDeferredFrees H ps o = o := by
  induction ps generalizing o with
  | nil => rfl
  | cons p ps ih =>
    have hp : Conn.free H p = Outcome.ret () := by
      unfold Conn.free
      split_ifs
      · rfl
      · rw [hfree p]
    simp only [runDeferredFrees, hp]
    exact ih o

/-- C7: for every non-nil connection, when the engine's close call answers a code other than
`_OK`, `Close` leaves the connection open (handle unchanged, module not closed) and whatever
it returns is a non-nil error carrying that code; and it does return it whenever the engine
keeps to its side (the answer to close is not an out-of-memory code and the message strings
it points to are readable).  When the engine answers `_OK` the handle is set to 0 and the
module is closed; the connection changes only when the engine answers `_OK`; and `Close` on
the nil connection returns nil. -/
theorem Close_spec (K : SqliteConsts) (H : CloseHost) (c : Conn) :
    (∀ rc, H.close c.handle = Except.ok rc → rc ≠ K._OK →
      (Conn.Close K H (some c)).conn = some c ∧
      ∀ ev, (Conn.Close K H (some c)).out = Outcome.ret ev →
        ∃ e, ev = ErrorValue.sqlite e ∧ e.code = rc) ∧
    (∀ rc, H.close c.handle = Except.ok rc → rc ≠ K._OK → ¬ isOOM K rc →
      messagesReadable H.toErrorHost c.handle rc →
      ∃ e, Conn.Close K H (some c) =
          { out := Outcome.ret (ErrorValue.sqlite e), conn := some c } ∧
        e.code = rc) ∧
    (H.close c.handle = Except.ok K._OK →
      Conn.Close K H (some c) =
        { out := Outcome.ret H.modClose, conn := some { handle := 0, modClosed := true } }) ∧
    ((Conn.Close K H (some c)).conn ≠ some c → H.close c.handle = Except.ok K._OK) ∧
    Conn.Close K H none = { out := Outcome.ret ErrorValue.nil, conn := none } := by
  have hopen : ∀ rc, H.close c.handle = Except.ok rc → rc ≠ K._OK →
      (Conn.Close K H (some c)).conn = some c ∧
      ∀ ev, (Conn.Close K H (some c)).out = Outcome.ret ev →
        ∃ e, ev = ErrorValue.sqlite e ∧ e.code = rc := by
    intro rc h hrc
    cases herr : Conn.error K H.toErrorHost c.handle rc none with
    | panic v =>
      have hcl : Conn.Close K H (some c) = { out := Outcome.panic v, conn := some c } := by
        simp only [Conn.Close, h, herr]
      rw [hcl]
      exact ⟨rfl, fun ev hev => by cases hev⟩
    | ret o =>
      obtain ⟨e, ho, hcode⟩ := Conn.error_code K H.toErrorHost c.handle rc none hrc o herr
      subst ho
      have hcl : Conn.Close K H (some c) =
          { out := Outcome.ret (ErrorValue.sqlite e), conn := some c } := by
        simp only [Conn.Close, h, herr]
      rw [hcl]
      refine ⟨rfl, fun ev hev => ⟨e, ?_, hcode⟩⟩
      cases hev
      rfl
  refine ⟨hopen, ?_, ?_, ?_, rfl⟩
  · intro rc h hrc hoom hread
    obtain ⟨e, he, hcode⟩ := Conn.error_ret K H.toErrorHost c.handle rc none hrc hoom hread
      (by intro s r0 hs; cases hs)
    exact ⟨e, by simp only [Conn.Close, h, he], hcode⟩
  · intro h
    simp only [Conn.Close, h, Conn.error_OK]
  · intro hchg
    cases hcl : H.close c.handle with
    | error e =>
      exfalso; apply hchg
      simp only [Conn.Close, hcl]
    | ok rc =>
      by_cases hrc : rc = K._OK
      · rw [hrc]
      · exact absurd (hopen rc hcl hrc).1 hchg

/-- C7 witness: the engine answers `BUSY` (5) to one close and `_OK` to another. -/
theorem Close_spec_witness :
    ((closeAnswers (Except.ok 5)).close 1 = Except.ok 5 ∧
      5 ≠ sqliteConsts._OK ∧ ¬ isOOM sqliteConsts 5 ∧
      messagesReadable (closeAnswers (Except.ok 5)).toErrorHost 1 5) ∧
    (∃ e, Conn.Close sqliteConsts (closeAnswers (Except.ok 5))
          (some { handle := 1, modClosed := false }) =
          { out := Outcome.ret (ErrorValue.sqlite e),
            conn := some { handle := 1, modClosed := false } } ∧
        e.code = 5) ∧
    (Conn.Close sqliteConsts (closeAnswers (Except.ok 5))
        (some { handle := 1, modClosed := false })).conn
      = some { handle := 1, modClosed := false } ∧
    Conn.Close sqliteConsts (closeAnswers (Except.ok 0))
        (some { handle := 1, modClosed := false }) =
      { out := Outcome.ret (closeAnswers (Except.ok 0)).modClose,
        conn := some { handle := 0, modClosed := true } } :=
  have hread : messagesReadable (closeAnswers (Except.ok 5)).toErrorHost 1 5 :=
    ⟨fun _ _ => ⟨_, rfl⟩, fun _ _ => ⟨_, rfl⟩⟩
  ⟨⟨rfl, by decide, by unfold isOOM; decide, hread⟩,
   (Close_spec sqliteConsts (closeAnswers (Except.ok 5))
      { handle := 1, modClosed := false }).2.1 5 rfl (by decide) (by unfold isOOM; decide)
      hread,
   ((Close_spec sqliteConsts (closeAnswers (Except.ok 5))
      { handle := 1, modClosed := false }).1 5 rfl (by decide)).1,
   (Close_spec sqliteConsts (closeAnswers (Except.ok 0))
      { handle := 1, modClosed := false }).2.2.1 rfl⟩

/-- C8, as stated, fails: when the engine's prepare call answers `NOMEM` (7, a code other
than `_OK`), `PrepareFlags` does not return `(nil, "", err)`; it panics with `oomErr`.  It
does not return either when the engine answers `ERROR` (1) and leaves a message that
`readString` cannot read within 512 bytes: the panic of the read goes through. -/
theorem PrepareFlags_panics_on_error_answer :
    ((prepareAnswers 7 0 1024).prepare 1 1024 7 0 1088 1152 = Except.ok 7 ∧
      7 ≠ sqliteConsts._OK ∧
      Conn.PrepareFlags sqliteConsts (prepareAnswers 7 0 1024)
          { handle := 1, modClosed := false } (ascii "SELECT") 0
        = Outcome.panic PanicValue.oomErr ∧
      ¬ ∃ r, Conn.PrepareFlags sqliteConsts (prepareAnswers 7 0 1024)
          { handle := 1, modClosed := false } (ascii "SELECT") 0 = Outcome.ret r) ∧
    ((prepareAnswersWith longMessageHost 1 0 1029).prepare 1 1024 6 0 1088 1152 = Except.ok 1 ∧
      1 ≠ sqliteConsts._OK ∧ ¬ isOOM sqliteConsts 1 ∧
      Conn.PrepareFlags sqliteConsts (prepareAnswersWith longMessageHost 1 0 1029)
          { handle := 1, modClosed := false } (ascii "SELEC") 0
        = Outcome.panic (PanicValue.memory "missing NUL terminator") ∧
      ¬ ∃ r, Conn.PrepareFlags sqliteConsts (prepareAnswersWith longMessageHost 1 0 1029)
          { handle := 1, modClosed := false } (ascii "SELEC") 0 = Outcome.ret r) := by
  have h : Conn.PrepareFlags sqliteConsts (prepareAnswers 7 0 1024)
        { handle := 1, modClosed := false } (ascii "SELECT") 0
      = Outcome.panic PanicValue.oomErr := by
    decide
  have h2 : Conn.PrepareFlags sqliteConsts (prepareAnswersWith longMessageHost 1 0 1029)
        { handle := 1, modClosed := false } (ascii "SELEC") 0
      = Outcome.panic (PanicValue.memory "missing NUL terminator") := by
    decide
  refine ⟨⟨rfl, by decide, h, ?_⟩, ⟨rfl, by decide, by unfold isOOM; decide, h2, ?_⟩⟩
  · rintro ⟨r, hr⟩
    rw [h] at hr
    cases hr
  · rintro ⟨r, hr⟩
    rw [h2] at hr
    cases hr

/-- C8, amended: in a call of `PrepareFlags` whose allocations, memory reads and deferred
frees succeed and in which the tail pointer the engine leaves lies within the sql text: when
the engine's prepare call answers `_OK` with a zero statement handle, `PrepareFlags` returns
`stmt = nil`, `tail = ""` and `err = nil`; when it answers a code other than `_OK` that is
not an out-of-memory code, the message strings are readable and the error offset, if one is
reported, lies within the sql text, `PrepareFlags` returns `stmt = nil`, `tail = ""` and a
non-nil error carrying the code; when it answers an out-of-memory code, `PrepareFlags` panics
with `oomErr`. -/
theorem PrepareFlags_spec (K : SqliteConsts) (H : PrepareHost) (c : Conn) (sql : GoString)
    (flags : Nat) (sqlPtr stmtPtr tailPtr stmtHandle tailVal : Nat)
    (hsql : Conn.newString H 0 sql = Outcome.ret sqlPtr)
    (hstmt : Conn.new H 1 K.ptrlen = Outcome.ret stmtPtr)
    (htail : Conn.new H 2 K.ptrlen = Outcome.ret tailPtr)
    (hfree : ∀ p, H.free p = none)
    (hrs : H.readUint32 stmtPtr = Outcome.ret stmtHandle)
    (hrt : H.readUint32 tailPtr = Outcome.ret tailVal)
    (hin : (tailVal % 2 ^ 32 + 2 ^ 32 - sqlPtr) % 2 ^ 32 ≤ sql.length) :
    (H.prepare c.handle sqlPtr (sql.length + 1) flags stmtPtr tailPtr = Except.ok K._OK →
      stmtHandle % 2 ^ 32 = 0 →
      Conn.PrepareFlags K H c sql flags = Outcome.ret (none, [], ErrorValue.nil)) ∧
    (∀ rc, H.prepare c.handle sqlPtr (sql.length + 1) flags stmtPtr tailPtr = Except.ok rc →
      rc ≠ K._OK → ¬ isOOM K rc →
      messagesReadable H.toErrorHost c.handle rc →
      (∀ r0, H.erroff c.handle = some r0 → r0 ≠ MaxUint32 → r0 ≤ sql.length) →
      ∃ e, Conn.PrepareFlags K H c sql flags = Outcome.ret (none, [], ErrorValue.sqlite e) ∧
        e.code = rc) ∧
    (∀ rc, H.prepare c.handle sqlPtr (sql.length + 1) flags stmtPtr tailPtr = Except.ok rc →
      rc ≠ K._OK → isOOM K rc →
      Conn.PrepareFlags K H c sql flags = Outcome.panic PanicValue.oomErr) := by
  have hrun : Conn.PrepareFlags K H c sql flags =
      Conn.PrepareFlags.body K H c sql flags sqlPtr stmtPtr tailPtr := by
    simp only [Conn.PrepareFlags, hsql, hstmt, htail]
    exact runDeferredFrees_ok H hfree _ _
  have hnot : ¬ sql.length < (tailVal % 2 ^ 32 + 2 ^ 32 - sqlPtr) % 2 ^ 32 := by
    omega
  refine ⟨?_, ?_, ?_⟩
  · intro hp hz
    rw [hrun]
    simp only [Conn.PrepareFlags.body, hp, hrs, hrt, if_neg hnot, Conn.error_OK, hz, if_true]
  · intro rc hp hrc hoom hread hoff
    obtain ⟨e, he, hcode⟩ := Conn.error_ret K H.toErrorHost c.handle rc (some sql) hrc hoom
      hread (by intro s r0 hs; cases hs; exact hoff r0)
    refine ⟨e, ?_, hcode⟩
    rw [hrun]
    simp only [Conn.PrepareFlags.body, hp, hrs, hrt, if_neg hnot, he]
  · intro rc hp hrc hoom
    rw [hrun]
    simp only [Conn.PrepareFlags.body, hp, hrs, hrt, if_neg hnot,
      Conn.error_oom K H.toErrorHost c.handle rc (some sql) hrc hoom]

/-- C8 witness: a comment prepared with an `_OK` answer and a zero statement handle, and a
misspelt statement that the engine rejects with `ERROR` (1). -/
theorem PrepareFlags_spec_witness :
    (Conn.newString (prepareAnswers 0 0 1028) 0 (ascii "-- c") = Outcome.ret 1024 ∧
      Conn.new (prepareAnswers 0 0 1028) 1 sqliteConsts.ptrlen = Outcome.ret 1088 ∧
      Conn.new (prepareAnswers 0 0 1028) 2 sqliteConsts.ptrlen = Outcome.ret 1152 ∧
      (prepareAnswers 0 0 1028).readUint32 1088 = Outcome.ret 0 ∧
      (prepareAnswers 0 0 1028).readUint32 1152 = Outcome.ret 1028 ∧
      (1028 % 2 ^ 32 + 2 ^ 32 - 1024) % 2 ^ 32 ≤ (ascii "-- c").length) ∧
    Conn.PrepareFlags sqliteConsts (prepareAnswers 0 0 1028)
        { handle := 1, modClosed := false } (ascii "-- c") 0
      = Outcome.ret (none, [], ErrorValue.nil) ∧
    (1 ≠ sqliteConsts._OK ∧ ¬ isOOM sqliteConsts 1 ∧
      messagesReadable (prepareAnswers 1 0 1029).toErrorHost 1 1) ∧
    ∃ e, Conn.PrepareFlags sqliteConsts (prepareAnswers 1 0 1029)
        { handle := 1, modClosed := false } (ascii "SELEC") 0
      = Outcome.ret (none, [], ErrorValue.sqlite e) ∧ e.code = 1 :=
  have hread : messagesReadable (prepareAnswers 1 0 1029).toErrorHost 1 1 :=
    ⟨fun _ _ => ⟨_, rfl⟩, fun _ _ => ⟨_, rfl⟩⟩
  ⟨⟨by decide, by decide, by decide, by decide, by decide, by decide⟩,
   (PrepareFlags_spec sqliteConsts (prepareAnswers 0 0 1028)
      { handle := 1, modClosed := false } (ascii "-- c") 0 1024 1088 1152 0 1028
      (by decide) (by decide) (by decide) (fun _ => rfl) (by decide) (by decide)
      (by decide)).1 rfl (by decide),
   ⟨by decide, by unfold isOOM; decide, hread⟩,
   (PrepareFlags_spec sqliteConsts (prepareAnswers 1 0 1029)
      { handle := 1, modClosed := false } (ascii "SELEC") 0 1024 1088 1152 0 1029
      (by decide) (by decide) (by decide) (fun _ => rfl) (by decide) (by decide)
      (by decide)).2.1 1 rfl (by decide) (by unfold isOOM; decide) hread
      (fun _ h hne => absurd (Option.some.inj h).symm hne)⟩

end Sqlite3
